import Mathlib

/-!
The registration-entry resource and data source of terraform-provider-spire.

A shallow embedding of `internal/provider/entry_resource.go` and
`internal/provider/entry_data_source.go`.

* Go strings are Lean strings; a Go `error` is the text its `Error()`
  method returns.
* A Go pointer that may be nil is an `Option`; dereferencing `none` is a
  run-time fault, which ends the operation with `Outcome.fault`.
* A Go slice is a `List`. A slice decoded from a plan is never nil; a
  slice a method builds by appending to a nil slice is nil exactly when
  it is empty.
* The gRPC client is a record of state-passing functions over an
  arbitrary registry state `σ`: each call maps a request and the
  registry state to a result (an error text or a response) and the next
  registry state.
* Each lifecycle method receives the diagnostics and the decoded model
  that the framework call `req.Plan.Get` / `req.State.Get` /
  `req.Config.Get` produced, and yields the response the framework sees.
-/

/-! ## Plugin-framework values -/

/-- Go string, named apart from the framework type `types.String`. -/
abbrev GoString : Type := String

/-- Framework type `types.String`: a string attribute is null, unknown
or known. -/
inductive types.String where
  | null : types.String
  | unknown : types.String
  | known (s : GoString) : types.String
  deriving DecidableEq, Repr

/-- Framework method `ValueString`: the known value, the empty string
when the attribute is null or unknown. -/
def types.String.ValueString : types.String → GoString
  | .known s => s
  | .null => ""
  | .unknown => ""

/-- Framework constructor `types.StringValue`: a known string. -/
def types.StringValue (s : GoString) : types.String := .known s

/-- Framework type `diag.Severity`. -/
inductive diag.Severity where
  | SeverityError : diag.Severity
  | SeverityWarning : diag.Severity
  deriving DecidableEq, Repr

/-- Framework type `diag.Diagnostic`, as the framework compares it:
severity, summary (the message) and detail. -/
structure diag.Diagnostic where
  Severity : diag.Severity
  Summary : GoString
  Detail : GoString
  deriving DecidableEq, Repr

/-- Framework type `diag.Diagnostics`: a slice of diagnostics. -/
abbrev diag.Diagnostics : Type := List diag.Diagnostic

/-- Framework method `Diagnostics.Append`: adds each given diagnostic
that is not already contained, in order. -/
def diag.Append (ds : diag.Diagnostics) (more : List diag.Diagnostic) : diag.Diagnostics :=
  more.foldl (fun acc d => if d ∈ acc then acc else acc ++ [d]) ds

/-- Framework method `Diagnostics.AddError`: appends an error diagnostic
with the given summary and detail. -/
def diag.AddError (ds : diag.Diagnostics) (summary detail : GoString) : diag.Diagnostics :=
  diag.Append ds [⟨.SeverityError, summary, detail⟩]

/-- Framework method `Diagnostics.HasError`: some diagnostic has error
severity. -/
def diag.HasError (ds : diag.Diagnostics) : Bool :=
  ds.any (fun d => decide (d.Severity = .SeverityError))

/-! ## Provider models (`entry_resource.go`, `entry_data_source.go`) -/

/-- Go struct `SpiffeIdModel`. -/
structure SpiffeIdModel where
  TrustDomain : types.String
  Path : types.String
  deriving DecidableEq, Repr

/-- Go struct `SpiffeSelectorModel`; the Go field `Type` is `Type_`. -/
structure SpiffeSelectorModel where
  Type_ : types.String
  Value : types.String
  deriving DecidableEq, Repr

/-- Go struct `SpireEntryResourceModel`; the three pointer fields are
options. -/
structure SpireEntryResourceModel where
  Id : types.String
  SpiffeId : Option SpiffeIdModel
  ParentId : Option SpiffeIdModel
  Selectors : Option (List SpiffeSelectorModel)
  deriving DecidableEq, Repr

/-- Go struct `SpireEntryDataSourceModel`. -/
structure SpireEntryDataSourceModel where
  Id : types.String
  SpiffeId : Option SpiffeIdModel
  ParentId : Option SpiffeIdModel
  Selectors : Option (List SpiffeSelectorModel)
  deriving DecidableEq, Repr

/-! ## Wire records of the registry API (`spire-api-sdk`)

Only the fields the provider reads or sets are kept; every other field
of these records is left at its zero value by the provider and is never
read by it. Message-typed fields are pointers, hence options; elements
of repeated fields are never nil. -/

/-- Wire record `types.SPIFFEID`. -/
structure spireTypes.SPIFFEID where
  TrustDomain : GoString
  Path : GoString
  deriving DecidableEq, Repr

/-- Wire record `types.Selector`; the Go field `Type` is `Type_`. -/
structure spireTypes.Selector where
  Type_ : GoString
  Value : GoString
  deriving DecidableEq, Repr

/-- Wire record `types.Entry`. -/
structure spireTypes.Entry where
  Id : GoString
  SpiffeId : Option spireTypes.SPIFFEID
  ParentId : Option spireTypes.SPIFFEID
  Selectors : List spireTypes.Selector
  deriving DecidableEq, Repr

/-- Wire record `types.Status`: a gRPC status code (0 is OK) and a
message. -/
structure spireTypes.Status where
  Code : Int
  Message : GoString
  deriving DecidableEq, Repr

/-- Wire record `ListEntriesRequest_Filter`. -/
structure entryv1.ListEntriesRequest_Filter where
  BySpiffeId : Option spireTypes.SPIFFEID
  deriving DecidableEq, Repr

/-- Wire record `ListEntriesRequest`. -/
structure entryv1.ListEntriesRequest where
  Filter : Option entryv1.ListEntriesRequest_Filter
  deriving DecidableEq, Repr

/-- Wire record `ListEntriesResponse`. -/
structure entryv1.ListEntriesResponse where
  Entries : List spireTypes.Entry
  deriving DecidableEq, Repr

/-- Wire record `GetEntryRequest`. -/
structure entryv1.GetEntryRequest where
  Id : GoString
  deriving DecidableEq, Repr

/-- Wire record `BatchCreateEntryRequest`. -/
structure entryv1.BatchCreateEntryRequest where
  Entries : List spireTypes.Entry
  deriving DecidableEq, Repr

/-- Wire record `BatchCreateEntryResponse_Result`: the per-item outcome
and, when the registry sends one, the entry. -/
structure entryv1.BatchCreateEntryResponse_Result where
  Status : Option spireTypes.Status
  Entry : Option spireTypes.Entry
  deriving DecidableEq, Repr

/-- Wire record `BatchCreateEntryResponse`. -/
structure entryv1.BatchCreateEntryResponse where
  Results : List entryv1.BatchCreateEntryResponse_Result
  deriving DecidableEq, Repr

/-- Wire record `BatchUpdateEntryRequest`. -/
structure entryv1.BatchUpdateEntryRequest where
  Entries : List spireTypes.Entry
  deriving DecidableEq, Repr

/-- Wire record `BatchUpdateEntryResponse_Result`. -/
structure entryv1.BatchUpdateEntryResponse_Result where
  Status : Option spireTypes.Status
  Entry : Option spireTypes.Entry
  deriving DecidableEq, Repr

/-- Wire record `BatchUpdateEntryResponse`. -/
structure entryv1.BatchUpdateEntryResponse where
  Results : List entryv1.BatchUpdateEntryResponse_Result
  deriving DecidableEq, Repr

/-- Wire record `BatchDeleteEntryRequest`. -/
structure entryv1.BatchDeleteEntryRequest where
  Ids : List GoString
  deriving DecidableEq, Repr

/-- Wire record `BatchDeleteEntryResponse_Result`. -/
structure entryv1.BatchDeleteEntryResponse_Result where
  Status : Option spireTypes.Status
  Id : GoString
  deriving DecidableEq, Repr

/-- Wire record `BatchDeleteEntryResponse`. -/
structure entryv1.BatchDeleteEntryResponse where
  Results : List entryv1.BatchDeleteEntryResponse_Result
  deriving DecidableEq, Repr

/-- Go interface `entryv1.EntryClient`, restricted to the five calls the
provider makes. A call returns either the text of the Go error or the
response, together with the registry state after the call. -/
structure entryv1.EntryClient (σ : Type) where
  ListEntries : entryv1.ListEntriesRequest → σ → Except GoString entryv1.ListEntriesResponse × σ
  GetEntry : entryv1.GetEntryRequest → σ → Except GoString spireTypes.Entry × σ
  BatchCreateEntry :
    entryv1.BatchCreateEntryRequest → σ → Except GoString entryv1.BatchCreateEntryResponse × σ
  BatchUpdateEntry :
    entryv1.BatchUpdateEntryRequest → σ → Except GoString entryv1.BatchUpdateEntryResponse × σ
  BatchDeleteEntry :
    entryv1.BatchDeleteEntryRequest → σ → Except GoString entryv1.BatchDeleteEntryResponse × σ

/-! ## Responses and outcomes of a lifecycle method -/

/-- What a lifecycle method leaves in its framework response: the
diagnostics, and the model passed to `resp.State.Set` (`none` when the
method never called it). -/
structure Response (α : Type) where
  Diagnostics : diag.Diagnostics
  State : Option α
  deriving DecidableEq, Repr

/-- How a lifecycle method ends: it returns to the framework, or it
faults on a nil pointer before returning. -/
inductive Outcome (α : Type) where
  | fault : Outcome α
  | returned (resp : Response α) : Outcome α
  deriving DecidableEq, Repr

/-- The method returned and its diagnostics hold an error. -/
def Outcome.RecordsError {α : Type} : Outcome α → Bool
  | .fault => false
  | .returned resp => diag.HasError resp.Diagnostics

/-- The model the method wrote to state, if it returned and wrote one. -/
def Outcome.Written {α : Type} : Outcome α → Option α
  | .fault => none
  | .returned resp => resp.State

/-- Framework call `resp.State.Set(ctx, &data)` on a model decoded from
a plan and passed on with its selectors untouched, as `Create` and
`Update` do: a decoded set holds no repeated element and its slice is not
nil, so the model becomes the state and no diagnostic comes back. -/
def StateSet {α : Type} (data : α) : Option α × List diag.Diagnostic :=
  (some data, [])

/-- Go `strconv.Quote` of one character: the quote, the backslash and
the control characters with a letter escape are escaped, every other
character is kept. -/
def strconvQuoteChar (c : Char) : List Char :=
  if c = Char.ofNat 34 then [Char.ofNat 92, Char.ofNat 34]
  else if c = Char.ofNat 92 then [Char.ofNat 92, Char.ofNat 92]
  else if c = Char.ofNat 7 then [Char.ofNat 92, 'a']
  else if c = Char.ofNat 8 then [Char.ofNat 92, 'b']
  else if c = Char.ofNat 12 then [Char.ofNat 92, 'f']
  else if c = Char.ofNat 10 then [Char.ofNat 92, 'n']
  else if c = Char.ofNat 13 then [Char.ofNat 92, 'r']
  else if c = Char.ofNat 9 then [Char.ofNat 92, 't']
  else if c = Char.ofNat 11 then [Char.ofNat 92, 'v']
  else [c]

/-- Go `strconv.Quote`, the text the verb `%q` prints for a string. -/
def strconvQuote (s : GoString) : GoString :=
  String.mk ([Char.ofNat 34] ++ (s.data.map strconvQuoteChar).flatten ++ [Char.ofNat 34])

/-- The text `tftypes.Value.String` gives for a string attribute. -/
def tftypesString : types.String → GoString
  | .null => "tftypes.String<null>"
  | .unknown => "tftypes.String<unknown>"
  | .known s => "tftypes.String<" ++ strconvQuote s ++ ">"

/-- The text `tftypes.Value.String` gives for a selector object. -/
def tftypesSelector (sel : SpiffeSelectorModel) : GoString :=
  "tftypes.Object[" ++ strconvQuote "type" ++ ":tftypes.String, "
    ++ strconvQuote "value" ++ ":tftypes.String]<"
    ++ strconvQuote "type" ++ ":" ++ tftypesString sel.Type_ ++ ", "
    ++ strconvQuote "value" ++ ":" ++ tftypesString sel.Value ++ ">"

/-- Framework method `IsFullyKnown` on a selector object: neither of its
strings is unknown. -/
def SpiffeSelectorModel.IsFullyKnown (sel : SpiffeSelectorModel) : Bool :=
  decide (sel.Type_ ≠ .unknown) && decide (sel.Value ≠ .unknown)

/-- Framework method `SetType.Validate` on the selectors set: for every
fully known element and every later element equal to it, one error
`Duplicate Set Element` (the attribute path the framework attaches to it
is not kept). -/
def DuplicateSetElements : List SpiffeSelectorModel → List diag.Diagnostic
  | [] => []
  | outer :: rest =>
    (if outer.IsFullyKnown then
      (rest.filter fun inner => decide (inner = outer)).map fun inner =>
        { Severity := .SeverityError
          Summary := "Duplicate Set Element"
          Detail := "This attribute contains duplicate values of: " ++ tftypesSelector inner }
    else [])
    ++ DuplicateSetElements rest

/-- What `resp.State.Set` makes of a selectors pointer whose slice the
method built itself by appending to a nil slice, as the two `Read`
methods do: a nil pointer and a pointer to the slice left nil are stored
as the null set; a slice with a repeated element is refused with the
diagnostics of `DuplicateSetElements`; any other slice is stored as it
is. -/
def StateSet_selectors :
    Option (List SpiffeSelectorModel) →
      Except (List diag.Diagnostic) (Option (List SpiffeSelectorModel))
  | none => .ok none
  | some [] => .ok none
  | some (sel :: rest) =>
    if diag.HasError (diag.Append [] (DuplicateSetElements (sel :: rest))) then
      .error (diag.Append [] (DuplicateSetElements (sel :: rest)))
    else
      .ok (some (sel :: rest))

/-- Framework call `resp.State.Set(ctx, &data)` in the resource `Read`
(line 212): when the selectors are refused nothing is stored and the
diagnostics come back; otherwise the model is stored, with the selectors
as `StateSet_selectors` gives them. -/
def SpireEntryResource.Read_StateSet (data : SpireEntryResourceModel) :
    Option SpireEntryResourceModel × List diag.Diagnostic :=
  match StateSet_selectors data.Selectors with
  | .error diags => (none, diags)
  | .ok stored => (some { data with Selectors := stored }, [])

/-- Framework call `resp.State.Set(ctx, &data)` in the data source `Read`
(line 150), as in the resource `Read`. -/
def SpireEntryDataSource.Read_StateSet (data : SpireEntryDataSourceModel) :
    Option SpireEntryDataSourceModel × List diag.Diagnostic :=
  match StateSet_selectors data.Selectors with
  | .error diags => (none, diags)
  | .ok stored => (some { data with Selectors := stored }, [])

/-! ## `SpireEntryResource` (`entry_resource.go`) -/

/-- The selector loop of `Create` (lines 130-136): dereferences
`data.Selectors`, which faults on nil, and appends one wire selector per
model selector. -/
def SpireEntryResource.Create_selectors (data : SpireEntryResourceModel) :
    Option (List spireTypes.Selector) :=
  match data.Selectors with
  | none => none
  | some sels =>
    some (sels.foldl
      (fun selectors sel =>
        selectors ++ [{ Type_ := sel.Type_.ValueString, Value := sel.Value.ValueString }])
      [])

/-- The request `Create` builds (lines 130-150); `none` when building it
faults on a nil pointer. -/
def SpireEntryResource.Create_request (data : SpireEntryResourceModel) :
    Option entryv1.BatchCreateEntryRequest :=
  match SpireEntryResource.Create_selectors data with
  | none => none
  | some selectors =>
    match data.SpiffeId with
    | none => none
    | some sid =>
      match data.ParentId with
      | none => none
      | some pid =>
        some { Entries := [
          { Id := data.Id.ValueString
            SpiffeId := some
              { TrustDomain := sid.TrustDomain.ValueString, Path := sid.Path.ValueString }
            ParentId := some
              { TrustDomain := pid.TrustDomain.ValueString, Path := pid.Path.ValueString }
            Selectors := selectors }] }

/-- The result loop of `Create` (lines 157-167): every result item in
turn overwrites id, subject and parent identity of the model; reading a
result without entry, or an entry without one of its identities, faults. -/
def SpireEntryResource.Create_results :
    List entryv1.BatchCreateEntryResponse_Result → SpireEntryResourceModel →
      Option SpireEntryResourceModel
  | [], data => some data
  | r :: rest, data =>
    match r.Entry with
    | none => none
    | some entry =>
      match entry.SpiffeId with
      | none => none
      | some sid =>
        match entry.ParentId with
        | none => none
        | some pid =>
          SpireEntryResource.Create_results rest
            { data with
              Id := types.StringValue entry.Id
              SpiffeId := some
                { TrustDomain := types.StringValue sid.TrustDomain
                  Path := types.StringValue sid.Path }
              ParentId := some
                { TrustDomain := types.StringValue pid.TrustDomain
                  Path := types.StringValue pid.Path } }

/-- Method `SpireEntryResource.Create` (lines 120-175). `planDiags` and
`data` are what `req.Plan.Get` returned. -/
def SpireEntryResource.Create {σ : Type} (client : entryv1.EntryClient σ)
    (planDiags : List diag.Diagnostic) (data : SpireEntryResourceModel) (s : σ) :
    Outcome SpireEntryResourceModel × σ :=
  let diags := diag.Append [] planDiags
  if diag.HasError diags then
    (.returned { Diagnostics := diags, State := none }, s)
  else
    match SpireEntryResource.Create_request data with
    | none => (.fault, s)
    | some request =>
      match client.BatchCreateEntry request s with
      | (.error err, s') =>
        (.returned
          { Diagnostics := diag.AddError diags "Failed to create entries" err, State := none }, s')
      | (.ok response, s') =>
        match SpireEntryResource.Create_results response.Results data with
        | none => (.fault, s')
        | some data' =>
          (.returned
            { Diagnostics := diag.Append diags (StateSet data').2, State := (StateSet data').1 },
            s')

/-- The selector loop of `Read` (lines 202-208), shared in shape with the
data source (lines 140-146): one model selector per wire selector. -/
def Read_selectors (sels : List spireTypes.Selector) : List SpiffeSelectorModel :=
  sels.foldl
    (fun selectors sel =>
      selectors ++ [{ Type_ := types.StringValue sel.Type_, Value := types.StringValue sel.Value }])
    []

/-- The request `Read` builds (line 187). -/
def SpireEntryResource.Read_request (data : SpireEntryResourceModel) : entryv1.GetEntryRequest :=
  { Id := data.Id.ValueString }

/-- The model `Read` builds from the entry it got (lines 193-209);
`none` when the entry lacks an identity, which faults. -/
def SpireEntryResource.Read_entry (entry : spireTypes.Entry) : Option SpireEntryResourceModel :=
  match entry.SpiffeId with
  | none => none
  | some sid =>
    match entry.ParentId with
    | none => none
    | some pid =>
      some
        { Id := types.StringValue entry.Id
          SpiffeId := some
            { TrustDomain := types.StringValue sid.TrustDomain
              Path := types.StringValue sid.Path }
          ParentId := some
            { TrustDomain := types.StringValue pid.TrustDomain
              Path := types.StringValue pid.Path }
          Selectors := some (Read_selectors entry.Selectors) }

/-- Method `SpireEntryResource.Read` (lines 177-213). `stateDiags` and
`data` are what `req.State.Get` returned. -/
def SpireEntryResource.Read {σ : Type} (client : entryv1.EntryClient σ)
    (stateDiags : List diag.Diagnostic) (data : SpireEntryResourceModel) (s : σ) :
    Outcome SpireEntryResourceModel × σ :=
  let diags := diag.Append [] stateDiags
  if diag.HasError diags then
    (.returned { Diagnostics := diags, State := none }, s)
  else
    match client.GetEntry (SpireEntryResource.Read_request data) s with
    | (.error err, s') =>
      (.returned { Diagnostics := diag.AddError diags "Failed to get entry" err, State := none }, s')
    | (.ok entry, s') =>
      match SpireEntryResource.Read_entry entry with
      | none => (.fault, s')
      | some data' =>
        (.returned
          { Diagnostics := diag.Append diags (SpireEntryResource.Read_StateSet data').2
            State := (SpireEntryResource.Read_StateSet data').1 },
          s')

/-- The request `Update` builds (lines 225-245); `none` when building it
faults on a nil pointer. The selector list is the literal of lines
237-242. -/
def SpireEntryResource.Update_request (data : SpireEntryResourceModel) :
    Option entryv1.BatchUpdateEntryRequest :=
  match data.SpiffeId with
  | none => none
  | some sid =>
    match data.ParentId with
    | none => none
    | some pid =>
      some { Entries := [
        { Id := data.Id.ValueString
          SpiffeId := some
            { TrustDomain := sid.TrustDomain.ValueString, Path := sid.Path.ValueString }
          ParentId := some
            { TrustDomain := pid.TrustDomain.ValueString, Path := pid.Path.ValueString }
          Selectors := [{ Type_ := "unix", Value := "uid:501" }] }] }

/-- Method `SpireEntryResource.Update` (lines 215-254). `planDiags` and
`data` are what `req.Plan.Get` returned. -/
def SpireEntryResource.Update {σ : Type} (client : entryv1.EntryClient σ)
    (planDiags : List diag.Diagnostic) (data : SpireEntryResourceModel) (s : σ) :
    Outcome SpireEntryResourceModel × σ :=
  let diags := diag.Append [] planDiags
  if diag.HasError diags then
    (.returned { Diagnostics := diags, State := none }, s)
  else
    match SpireEntryResource.Update_request data with
    | none => (.fault, s)
    | some request =>
      match client.BatchUpdateEntry request s with
      | (.error err, s') =>
        (.returned
          { Diagnostics := diag.AddError diags "Failed to update entry" err, State := none }, s')
      | (.ok _, s') =>
        (.returned
          { Diagnostics := diag.Append diags (StateSet data).2, State := (StateSet data).1 }, s')

/-- The request `Delete` builds (lines 266-270). -/
def SpireEntryResource.Delete_request (data : SpireEntryResourceModel) :
    entryv1.BatchDeleteEntryRequest :=
  { Ids := [data.Id.ValueString] }

/-- Method `SpireEntryResource.Delete` (lines 256-275). `stateDiags` and
`data` are what `req.State.Get` returned. -/
def SpireEntryResource.Delete {σ : Type} (client : entryv1.EntryClient σ)
    (stateDiags : List diag.Diagnostic) (data : SpireEntryResourceModel) (s : σ) :
    Outcome SpireEntryResourceModel × σ :=
  let diags := diag.Append [] stateDiags
  if diag.HasError diags then
    (.returned { Diagnostics := diags, State := none }, s)
  else
    match client.BatchDeleteEntry (SpireEntryResource.Delete_request data) s with
    | (.error err, s') =>
      (.returned { Diagnostics := diag.AddError diags "Failed to get entry" err, State := none }, s')
    | (.ok _, s') =>
      (.returned { Diagnostics := diags, State := none }, s')

/-! ## `SpireEntryDataSource` (`entry_data_source.go`) -/

/-- The request the data source `Read` builds (lines 115-120); `none`
when the configured subject identity is nil, which faults. -/
def SpireEntryDataSource.Read_request (data : SpireEntryDataSourceModel) :
    Option entryv1.ListEntriesRequest :=
  match data.SpiffeId with
  | none => none
  | some sid =>
    some
      { Filter := some
          { BySpiffeId := some
              { TrustDomain := sid.TrustDomain.ValueString, Path := sid.Path.ValueString } } }

/-- The model the data source `Read` builds from the entry it picked
(lines 131-147); `none` when the entry lacks an identity, which faults. -/
def SpireEntryDataSource.Read_entry (entry : spireTypes.Entry) :
    Option SpireEntryDataSourceModel :=
  match entry.SpiffeId with
  | none => none
  | some sid =>
    match entry.ParentId with
    | none => none
    | some pid =>
      some
        { Id := types.StringValue entry.Id
          SpiffeId := some
            { TrustDomain := types.StringValue sid.TrustDomain
              Path := types.StringValue sid.Path }
          ParentId := some
            { TrustDomain := types.StringValue pid.TrustDomain
              Path := types.StringValue pid.Path }
          Selectors := some (Read_selectors entry.Selectors) }

/-- The detail text of line 127, `fmt.Sprintf("Got '%d' results", n)`. -/
def SpireEntryDataSource.Read_detail (n : Nat) : GoString :=
  "Got '" ++ toString n ++ "' results"

/-- Method `SpireEntryDataSource.Read` (lines 105-151). `configDiags`
and `data` are what `req.Config.Get` returned. -/
def SpireEntryDataSource.Read {σ : Type} (client : entryv1.EntryClient σ)
    (configDiags : List diag.Diagnostic) (data : SpireEntryDataSourceModel) (s : σ) :
    Outcome SpireEntryDataSourceModel × σ :=
  let diags := diag.Append [] configDiags
  if diag.HasError diags then
    (.returned { Diagnostics := diags, State := none }, s)
  else
    match SpireEntryDataSource.Read_request data with
    | none => (.fault, s)
    | some request =>
      match client.ListEntries request s with
      | (.error err, s') =>
        (.returned
          { Diagnostics := diag.AddError diags "Failed to list entries" err, State := none }, s')
      | (.ok entries, s') =>
        if entries.Entries.length ≠ 1 then
          (.returned
            { Diagnostics := diag.AddError diags
                "Failed to find resource matching datasource filter"
                (SpireEntryDataSource.Read_detail entries.Entries.length)
              State := none }, s')
        else
          match entries.Entries.get? (entries.Entries.length - 1) with
          | none => (.fault, s')
          | some entry =>
            match SpireEntryDataSource.Read_entry entry with
            | none => (.fault, s')
            | some data' =>
              (.returned
                { Diagnostics := diag.Append diags (SpireEntryDataSource.Read_StateSet data').2
                  State := (SpireEntryDataSource.Read_StateSet data').1 }, s')

/-! ## Clients used at concrete inputs

These clients are not part of the provider: they stand in for the
registry where a statement is evaluated at a concrete input. -/

/-- An in-memory registry holding a list of entries. Batch calls answer
per item with status `0` (OK) or `5` (NOT_FOUND); `GetEntry` of an
unknown id is an RPC error. -/
def memoryRegistry : entryv1.EntryClient (List spireTypes.Entry) where
  ListEntries req s :=
    (.ok { Entries := s.filter fun e =>
        match req.Filter with
        | none => true
        | some f =>
          match f.BySpiffeId with
          | none => true
          | some sid => decide (e.SpiffeId = some sid) }, s)
  GetEntry req s :=
    match s.find? (fun e => decide (e.Id = req.Id)) with
    | some e => (.ok e, s)
    | none => (.error "rpc error: code = NotFound desc = entry not found", s)
  BatchCreateEntry req s :=
    (.ok { Results := req.Entries.map fun e =>
        { Status := some { Code := 0, Message := "OK" }, Entry := some e } }, s ++ req.Entries)
  BatchUpdateEntry req s :=
    (.ok { Results := req.Entries.map fun e =>
        if s.any (fun old => decide (old.Id = e.Id)) then
          { Status := some { Code := 0, Message := "OK" }, Entry := some e }
        else
          { Status := some { Code := 5, Message := "failed to update entry: not found" }
            Entry := none } },
      s.map fun old => (req.Entries.find? (fun e => decide (e.Id = old.Id))).getD old)
  BatchDeleteEntry req s :=
    (.ok { Results := req.Ids.map fun i =>
        if s.any (fun e => decide (e.Id = i)) then
          { Status := some { Code := 0, Message := "OK" }, Id := i }
        else
          { Status := some { Code := 5, Message := "entry not found" }, Id := i } },
      s.filter fun e => decide (e.Id ∉ req.Ids))

/-- A client whose every call fails with the given error text. -/
def unreachableRegistry (err : GoString) : entryv1.EntryClient Unit where
  ListEntries _ s := (.error err, s)
  GetEntry _ s := (.error err, s)
  BatchCreateEntry _ s := (.error err, s)
  BatchUpdateEntry _ s := (.error err, s)
  BatchDeleteEntry _ s := (.error err, s)

/-- The data source of `testAccSpireEntryDataSourceConfig`. -/
def dataSourceConfig : SpireEntryDataSourceModel :=
  { Id := .null
    SpiffeId := some
      { TrustDomain := .known "example.org", Path := .known "/some/datasource-test" }
    ParentId := none
    Selectors := none }

/-- The registry entry the data-source acceptance test looks up. -/
def dataSourceEntry : spireTypes.Entry :=
  { Id := "ds-1"
    SpiffeId := some { TrustDomain := "example.org", Path := "/some/datasource-test" }
    ParentId := some { TrustDomain := "example.org", Path := "/some/path" }
    Selectors := [{ Type_ := "unix", Value := "uid:501" }] }

/-! ## Concrete inputs taken from the acceptance tests -/

/-- The resource of `testAccSpireEntryResourceConfig "service"` with id
`e1`, its selector changed to `(unix, uid:1000)`. -/
def planUid1000 : SpireEntryResourceModel :=
  { Id := .known "e1"
    SpiffeId := some { TrustDomain := .known "example.org", Path := .known "/some/service" }
    ParentId := some { TrustDomain := .known "example.org", Path := .known "/some/path" }
    Selectors := some [{ Type_ := .known "unix", Value := .known "uid:1000" }] }

/-- The resource of `testAccSpireEntryResourceConfig "service"` before
the registry has assigned an id. -/
def planService : SpireEntryResourceModel :=
  { Id := .unknown
    SpiffeId := some { TrustDomain := .known "example.org", Path := .known "/some/service" }
    ParentId := some { TrustDomain := .known "example.org", Path := .known "/some/path" }
    Selectors := some [{ Type_ := .known "unix", Value := .known "uid:501" }] }

/-- The resource of `testAccSpireEntryResourceConfig "service2"` with
the id `e1` carried over from state. -/
def planService2 : SpireEntryResourceModel :=
  { Id := .known "e1"
    SpiffeId := some { TrustDomain := .known "example.org", Path := .known "/some/service2" }
    ParentId := some { TrustDomain := .known "example.org", Path := .known "/some/path" }
    Selectors := some [{ Type_ := .known "unix", Value := .known "uid:501" }] }

/-- The resource of `testAccSpireEntryResourceConfig "service"` with the
optional `selectors` attribute left out: the decoded pointer is nil. -/
def planNoSelectors : SpireEntryResourceModel :=
  { Id := .unknown
    SpiffeId := some { TrustDomain := .known "example.org", Path := .known "/some/service" }
    ParentId := some { TrustDomain := .known "example.org", Path := .known "/some/path" }
    Selectors := none }

/-- A registry entry with id `e1` for the subject `/some/service`. -/
def entryService : spireTypes.Entry :=
  { Id := "e1"
    SpiffeId := some { TrustDomain := "example.org", Path := "/some/service" }
    ParentId := some { TrustDomain := "example.org", Path := "/some/path" }
    Selectors := [{ Type_ := "unix", Value := "uid:501" }] }

/-- A second registry entry, id `e2`, with other identities and
selectors than `entryService`. -/
def entryOther : spireTypes.Entry :=
  { Id := "e2"
    SpiffeId := some { TrustDomain := "example.org", Path := "/other/service" }
    ParentId := some { TrustDomain := "example.org", Path := "/other/path" }
    Selectors := [{ Type_ := "k8s", Value := "ns:default" }, { Type_ := "unix", Value := "gid:7" }] }

/-- The entry of the data-source test with its selector sent twice. -/
def dataSourceEntryRepeated : spireTypes.Entry :=
  { Id := "ds-2"
    SpiffeId := some { TrustDomain := "example.org", Path := "/some/datasource-test" }
    ParentId := some { TrustDomain := "example.org", Path := "/some/path" }
    Selectors := [{ Type_ := "unix", Value := "uid:501" }, { Type_ := "unix", Value := "uid:501" }] }

/-- An entry for the data-source test whose first selector comes back
once more after another one. -/
def dataSourceEntryRepeatedApart : spireTypes.Entry :=
  { Id := "ds-3"
    SpiffeId := some { TrustDomain := "example.org", Path := "/some/datasource-test" }
    ParentId := some { TrustDomain := "example.org", Path := "/some/path" }
    Selectors := [
      { Type_ := "unix", Value := "uid:501" },
      { Type_ := "k8s", Value := "ns:default" },
      { Type_ := "unix", Value := "uid:501" }] }

/-- The entry `entryService` with its selector sent twice. -/
def entryServiceRepeated : spireTypes.Entry :=
  { Id := "e1"
    SpiffeId := some { TrustDomain := "example.org", Path := "/some/service" }
    ParentId := some { TrustDomain := "example.org", Path := "/some/path" }
    Selectors := [{ Type_ := "unix", Value := "uid:501" }, { Type_ := "unix", Value := "uid:501" }] }

/-- The entry `entryService` without any selector. -/
def entryServiceBare : spireTypes.Entry :=
  { Id := "e1"
    SpiffeId := some { TrustDomain := "example.org", Path := "/some/service" }
    ParentId := some { TrustDomain := "example.org", Path := "/some/path" }
    Selectors := [] }

/-- A client whose `BatchCreateEntry` answers every request with the
given response; its other calls fail. Not part of the provider. -/
def answeringCreate (response : entryv1.BatchCreateEntryResponse) : entryv1.EntryClient Unit where
  ListEntries _ s := (.error "unimplemented", s)
  GetEntry _ s := (.error "unimplemented", s)
  BatchCreateEntry _ s := (.ok response, s)
  BatchUpdateEntry _ s := (.error "unimplemented", s)
  BatchDeleteEntry _ s := (.error "unimplemented", s)

/-- A two-item create response: a successful item for `entryService`,
then an ALREADY_EXISTS (code `6`) item carrying `entryOther`. -/
def responseOkThenExists : entryv1.BatchCreateEntryResponse :=
  { Results := [
      { Status := some { Code := 0, Message := "OK" }, Entry := some entryService },
      { Status := some { Code := 6, Message := "similar entry already exists" }
        Entry := some entryOther }] }

/-- A one-item create response whose item is ALREADY_EXISTS (code `6`)
and carries the entry already in the registry. -/
def responseAlreadyExists : entryv1.BatchCreateEntryResponse :=
  { Results := [
      { Status := some { Code := 6, Message := "similar entry already exists" }
        Entry := some entryService }] }

/-! ## Predicates on batch results -/

/-- The result item carries an entry that has both identities. -/
def entryv1.BatchCreateEntryResponse_Result.Complete
    (r : entryv1.BatchCreateEntryResponse_Result) : Bool :=
  match r.Entry with
  | none => false
  | some entry => entry.SpiffeId.isSome && entry.ParentId.isSome

/-- The result item reports success: its status code is `0` (OK). -/
def entryv1.BatchCreateEntryResponse_Result.Succeeded
    (r : entryv1.BatchCreateEntryResponse_Result) : Bool :=
  match r.Status with
  | none => true
  | some status => decide (status.Code = 0)

/-- In the words of the specification of create: the first successful
result item of a batch response. -/
def firstSuccessfulResult (results : List entryv1.BatchCreateEntryResponse_Result) :
    Option entryv1.BatchCreateEntryResponse_Result :=
  results.find? fun r => r.Succeeded

/-! ## Lemmas on the framework values -/

theorem diag.HasError_append (xs ys : diag.Diagnostics) :
    diag.HasError (xs ++ ys) = (diag.HasError xs || diag.HasError ys) := by
  simp [diag.HasError]

theorem diag.HasError_Append (ds : diag.Diagnostics) (more : List diag.Diagnostic) :
    diag.HasError (diag.Append ds more) = (diag.HasError ds || diag.HasError more) := by
  induction more generalizing ds with
  | nil => simp [diag.Append, diag.HasError]
  | cons d rest ih =>
    have step : diag.Append ds (d :: rest)
        = diag.Append (if d ∈ ds then ds else ds ++ [d]) rest := by
      simp [diag.Append]
    rw [step, ih]
    by_cases hd : d ∈ ds
    · have hsev : (decide (d.Severity = .SeverityError) : Bool) = true → diag.HasError ds = true := by
        intro h
        simp only [diag.HasError, List.any_eq_true]
        exact ⟨d, hd, h⟩
      simp only [hd, if_true]
      cases hds : diag.HasError ds
      · cases hdv : (decide (d.Severity = .SeverityError) : Bool)
        · simp [diag.HasError, hdv]
        · rw [hsev hdv] at hds; cases hds
      · simp
    · simp only [hd, if_false, diag.HasError_append]
      simp [diag.HasError, Bool.or_assoc]

theorem diag.Append_nil (ds : diag.Diagnostics) : diag.Append ds [] = ds := rfl

theorem diag.HasError_AddError (ds : diag.Diagnostics) (summary detail : GoString) :
    diag.HasError (diag.AddError ds summary detail) = true := by
  unfold diag.AddError
  rw [diag.HasError_Append]
  simp [diag.HasError]

theorem diag.AddError_of_no_error (ds : diag.Diagnostics) (summary detail : GoString)
    (h : diag.HasError ds = false) :
    diag.AddError ds summary detail = ds ++ [⟨.SeverityError, summary, detail⟩] := by
  have hn : (⟨.SeverityError, summary, detail⟩ : diag.Diagnostic) ∉ ds := by
    intro hm
    have : diag.HasError ds = true := by
      simp only [diag.HasError, List.any_eq_true]
      exact ⟨_, hm, by simp⟩
    rw [h] at this
    cases this
  simp [diag.AddError, diag.Append, hn]

/-! ## Lemmas on the selector loops -/

theorem foldl_append_singleton {α β : Type} (f : α → β) (xs : List α) (acc : List β) :
    xs.foldl (fun out x => out ++ [f x]) acc = acc ++ xs.map f := by
  induction xs generalizing acc with
  | nil => simp
  | cons x rest ih => simp [ih]

theorem SpireEntryResource.Create_selectors_some (data : SpireEntryResourceModel)
    (sels : List SpiffeSelectorModel) (h : data.Selectors = some sels) :
    SpireEntryResource.Create_selectors data
      = some (sels.map fun sel =>
          { Type_ := sel.Type_.ValueString, Value := sel.Value.ValueString }) := by
  simp [SpireEntryResource.Create_selectors, h, foldl_append_singleton]

theorem Read_selectors_eq_map (sels : List spireTypes.Selector) :
    Read_selectors sels
      = sels.map fun sel =>
          { Type_ := types.StringValue sel.Type_, Value := types.StringValue sel.Value } := by
  simp [Read_selectors, foldl_append_singleton]

/-! ## Update -/

/-- C1: at a plan whose selectors are `(unix, uid:1000)`, the single item
of the request `Update` builds carries the selector `(unix, uid:501)` and
not the plan's, whereas the request `Create` builds from the same plan
carries the plan's selector. -/
theorem Update_request_ignores_plan_selectors :
    SpireEntryResource.Update_request planUid1000
      = some { Entries := [
          { Id := "e1"
            SpiffeId := some { TrustDomain := "example.org", Path := "/some/service" }
            ParentId := some { TrustDomain := "example.org", Path := "/some/path" }
            Selectors := [{ Type_ := "unix", Value := "uid:501" }] }] }
    ∧ SpireEntryResource.Create_request planUid1000
      = some { Entries := [
          { Id := "e1"
            SpiffeId := some { TrustDomain := "example.org", Path := "/some/service" }
            ParentId := some { TrustDomain := "example.org", Path := "/some/path" }
            Selectors := [{ Type_ := "unix", Value := "uid:1000" }] }] }
    ∧ ([{ Type_ := "unix", Value := "uid:501" }] : List spireTypes.Selector)
      ≠ [{ Type_ := "unix", Value := "uid:1000" }] := by
  refine ⟨rfl, rfl, ?_⟩
  decide

/-! ## Update state, delete -/

/-- C6: when `BatchUpdateEntry` returns without error, the state `Update`
writes is the plan it was given, field for field, whatever the update
response holds. -/
theorem Update_state_is_plan {σ : Type} (client : entryv1.EntryClient σ)
    (planDiags : List diag.Diagnostic) (data : SpireEntryResourceModel) (s s' : σ)
    (request : entryv1.BatchUpdateEntryRequest) (response : entryv1.BatchUpdateEntryResponse)
    (hdiags : diag.HasError planDiags = false)
    (hreq : SpireEntryResource.Update_request data = some request)
    (hcall : client.BatchUpdateEntry request s = (.ok response, s')) :
    SpireEntryResource.Update client planDiags data s
      = (.returned { Diagnostics := diag.Append [] planDiags, State := some data }, s') := by
  have h0 : diag.HasError (diag.Append [] planDiags) = false := by
    rw [diag.HasError_Append, hdiags]; rfl
  simp only [SpireEntryResource.Update, h0, hreq, hcall, StateSet, diag.Append_nil]
  rfl

theorem Update_state_is_plan_witness :
    SpireEntryResource.Update memoryRegistry [] planService2 [entryService]
      = (.returned
          { Diagnostics := []
            State := some
              { Id := .known "e1"
                SpiffeId := some
                  { TrustDomain := .known "example.org", Path := .known "/some/service2" }
                ParentId := some
                  { TrustDomain := .known "example.org", Path := .known "/some/path" }
                Selectors := some [{ Type_ := .known "unix", Value := .known "uid:501" }] } },
          [{ Id := "e1"
             SpiffeId := some { TrustDomain := "example.org", Path := "/some/service2" }
             ParentId := some { TrustDomain := "example.org", Path := "/some/path" }
             Selectors := [{ Type_ := "unix", Value := "uid:501" }] }]) :=
  Update_state_is_plan memoryRegistry [] planService2 [entryService] _
    { Entries := [
        { Id := "e1"
          SpiffeId := some { TrustDomain := "example.org", Path := "/some/service2" }
          ParentId := some { TrustDomain := "example.org", Path := "/some/path" }
          Selectors := [{ Type_ := "unix", Value := "uid:501" }] }] }
    { Results := [
        { Status := some { Code := 0, Message := "OK" }
          Entry := some
            { Id := "e1"
              SpiffeId := some { TrustDomain := "example.org", Path := "/some/service2" }
              ParentId := some { TrustDomain := "example.org", Path := "/some/path" }
              Selectors := [{ Type_ := "unix", Value := "uid:501" }] } }] }
    rfl rfl rfl

/-- C7: for a prior state whose id is `i`, `Delete` calls
`BatchDeleteEntry` with the id list `[i]`; whenever that call returns
without error, whatever the per-item outcome (a "not found" one
included), `Delete` returns without an error diagnostic, and so does a
second `Delete` of the same id right after it. -/
theorem Delete_ignores_item_outcome {σ : Type} (client : entryv1.EntryClient σ)
    (stateDiags : List diag.Diagnostic) (data : SpireEntryResourceModel) (i : GoString) (s : σ)
    (hdiags : diag.HasError stateDiags = false)
    (hid : data.Id = .known i) :
    SpireEntryResource.Delete_request data = { Ids := [i] }
    ∧ ∀ (s₁ : σ) (first : entryv1.BatchDeleteEntryResponse),
        client.BatchDeleteEntry { Ids := [i] } s = (.ok first, s₁) →
        SpireEntryResource.Delete client stateDiags data s
          = (.returned { Diagnostics := diag.Append [] stateDiags, State := none }, s₁)
        ∧ (SpireEntryResource.Delete client stateDiags data s).1.RecordsError = false
        ∧ ∀ (s₂ : σ) (second : entryv1.BatchDeleteEntryResponse),
            client.BatchDeleteEntry { Ids := [i] } s₁ = (.ok second, s₂) →
            SpireEntryResource.Delete client stateDiags data s₁
              = (.returned { Diagnostics := diag.Append [] stateDiags, State := none }, s₂)
            ∧ (SpireEntryResource.Delete client stateDiags data s₁).1.RecordsError = false := by
  have h0 : diag.HasError (diag.Append [] stateDiags) = false := by
    rw [diag.HasError_Append, hdiags]; rfl
  have hreq : SpireEntryResource.Delete_request data = { Ids := [i] } := by
    simp [SpireEntryResource.Delete_request, hid, types.String.ValueString]
  have key : ∀ (t t' : σ) (resp : entryv1.BatchDeleteEntryResponse),
      client.BatchDeleteEntry { Ids := [i] } t = (.ok resp, t') →
      SpireEntryResource.Delete client stateDiags data t
        = (.returned { Diagnostics := diag.Append [] stateDiags, State := none }, t') := by
    intro t t' resp hcall
    simp only [SpireEntryResource.Delete, h0, hreq, hcall]
    rfl
  refine ⟨hreq, ?_⟩
  intro s₁ first hfirst
  refine ⟨key s s₁ first hfirst, ?_, ?_⟩
  · rw [key s s₁ first hfirst]
    exact h0
  · intro s₂ second hsecond
    refine ⟨key s₁ s₂ second hsecond, ?_⟩
    rw [key s₁ s₂ second hsecond]
    exact h0

theorem Delete_ignores_item_outcome_witness :
    memoryRegistry.BatchDeleteEntry { Ids := ["e1"] } [entryService]
      = (.ok { Results := [{ Status := some { Code := 0, Message := "OK" }, Id := "e1" }] }, [])
    ∧ memoryRegistry.BatchDeleteEntry { Ids := ["e1"] } []
      = (.ok { Results := [{ Status := some { Code := 5, Message := "entry not found" }
                             Id := "e1" }] }, [])
    ∧ SpireEntryResource.Delete memoryRegistry [] planService2 [entryService]
      = (.returned { Diagnostics := [], State := none }, [])
    ∧ SpireEntryResource.Delete memoryRegistry [] planService2 []
      = (.returned { Diagnostics := [], State := none }, []) :=
  have h := (Delete_ignores_item_outcome memoryRegistry [] planService2 "e1" [entryService]
    rfl rfl).2 []
    { Results := [{ Status := some { Code := 0, Message := "OK" }, Id := "e1" }] } rfl
  ⟨rfl, rfl, h.1,
    (h.2.2 [] { Results := [{ Status := some { Code := 5, Message := "entry not found" }
                              Id := "e1" }] } rfl).1⟩

/-! ## Create -/

theorem SpireEntryResource.Create_after_call {σ : Type} (client : entryv1.EntryClient σ)
    (planDiags : List diag.Diagnostic) (data : SpireEntryResourceModel) (s s' : σ)
    (request : entryv1.BatchCreateEntryRequest) (response : entryv1.BatchCreateEntryResponse)
    (hdiags : diag.HasError planDiags = false)
    (hreq : SpireEntryResource.Create_request data = some request)
    (hcall : client.BatchCreateEntry request s = (.ok response, s')) :
    SpireEntryResource.Create client planDiags data s
      = match SpireEntryResource.Create_results response.Results data with
        | none => (.fault, s')
        | some data' =>
          (.returned { Diagnostics := diag.Append [] planDiags, State := some data' }, s') := by
  have h0 : diag.HasError (diag.Append [] planDiags) = false := by
    rw [diag.HasError_Append, hdiags]; rfl
  simp only [SpireEntryResource.Create, h0, hreq, hcall, StateSet, diag.Append_nil]
  rfl

theorem SpireEntryResource.Create_results_cons_complete
    (r : entryv1.BatchCreateEntryResponse_Result)
    (rest : List entryv1.BatchCreateEntryResponse_Result) (data : SpireEntryResourceModel)
    (entry : spireTypes.Entry) (sid pid : spireTypes.SPIFFEID)
    (hentry : r.Entry = some entry) (hsid : entry.SpiffeId = some sid)
    (hpid : entry.ParentId = some pid) :
    SpireEntryResource.Create_results (r :: rest) data
      = SpireEntryResource.Create_results rest
          { Id := .known entry.Id
            SpiffeId := some { TrustDomain := .known sid.TrustDomain, Path := .known sid.Path }
            ParentId := some { TrustDomain := .known pid.TrustDomain, Path := .known pid.Path }
            Selectors := data.Selectors } := by
  simp [SpireEntryResource.Create_results, hentry, hsid, hpid, types.StringValue]

theorem SpireEntryResource.Create_results_selectors
    (results : List entryv1.BatchCreateEntryResponse_Result)
    (data data' : SpireEntryResourceModel)
    (h : SpireEntryResource.Create_results results data = some data') :
    data'.Selectors = data.Selectors := by
  induction results generalizing data with
  | nil =>
    simp only [SpireEntryResource.Create_results, Option.some.injEq] at h
    rw [← h]
  | cons r rest ih =>
    cases hentry : r.Entry with
    | none => simp [SpireEntryResource.Create_results, hentry] at h
    | some entry =>
      cases hsid : entry.SpiffeId with
      | none => simp [SpireEntryResource.Create_results, hentry, hsid] at h
      | some sid =>
        cases hpid : entry.ParentId with
        | none => simp [SpireEntryResource.Create_results, hentry, hsid, hpid] at h
        | some pid =>
          rw [SpireEntryResource.Create_results_cons_complete r rest data entry sid pid
            hentry hsid hpid] at h
          exact (ih _ h).trans rfl

theorem entryv1.BatchCreateEntryResponse_Result.Complete_iff
    (r : entryv1.BatchCreateEntryResponse_Result) :
    r.Complete = true ↔ ∃ entry sid pid,
      r.Entry = some entry ∧ entry.SpiffeId = some sid ∧ entry.ParentId = some pid := by
  unfold entryv1.BatchCreateEntryResponse_Result.Complete
  cases hentry : r.Entry with
  | none => simp
  | some entry =>
    cases hsid : entry.SpiffeId <;> cases hpid : entry.ParentId <;> simp [hsid, hpid]

theorem SpireEntryResource.Create_results_total
    (results : List entryv1.BatchCreateEntryResponse_Result) (data : SpireEntryResourceModel)
    (hall : ∀ r ∈ results, r.Complete = true) :
    ∃ data', SpireEntryResource.Create_results results data = some data' := by
  induction results generalizing data with
  | nil => exact ⟨data, rfl⟩
  | cons r rest ih =>
    obtain ⟨entry, sid, pid, hentry, hsid, hpid⟩ :=
      (entryv1.BatchCreateEntryResponse_Result.Complete_iff r).1 (hall r (List.mem_cons_self r rest))
    rw [SpireEntryResource.Create_results_cons_complete r rest data entry sid pid hentry hsid hpid]
    exact ih _ (fun x hx => hall x (List.mem_cons_of_mem r hx))

theorem SpireEntryResource.Create_results_append
    (earlier later : List entryv1.BatchCreateEntryResponse_Result)
    (data : SpireEntryResourceModel) :
    SpireEntryResource.Create_results (earlier ++ later) data
      = (SpireEntryResource.Create_results earlier data).bind
          (SpireEntryResource.Create_results later) := by
  induction earlier generalizing data with
  | nil => simp [SpireEntryResource.Create_results]
  | cons r rest ih =>
    cases hentry : r.Entry with
    | none => simp [SpireEntryResource.Create_results, hentry]
    | some entry =>
      cases hsid : entry.SpiffeId with
      | none => simp [SpireEntryResource.Create_results, hentry, hsid]
      | some sid =>
        cases hpid : entry.ParentId with
        | none => simp [SpireEntryResource.Create_results, hentry, hsid, hpid]
        | some pid =>
          rw [List.cons_append,
            SpireEntryResource.Create_results_cons_complete r (rest ++ later) data entry sid pid
              hentry hsid hpid,
            SpireEntryResource.Create_results_cons_complete r rest data entry sid pid
              hentry hsid hpid]
          exact ih _

/-- C4, as stated, fails: for a response whose first item is successful
and carries `entryService` and whose second item is ALREADY_EXISTS and
carries `entryOther`, `Create` writes the id and identities of the
second item, not those of the first successful one. -/
theorem Create_state_not_first_successful :
    firstSuccessfulResult responseOkThenExists.Results
      = some { Status := some { Code := 0, Message := "OK" }, Entry := some entryService }
    ∧ (SpireEntryResource.Create (answeringCreate responseOkThenExists) [] planService ()).1
      = .returned
          { Diagnostics := []
            State := some
              { Id := .known "e2"
                SpiffeId := some
                  { TrustDomain := .known "example.org", Path := .known "/other/service" }
                ParentId := some
                  { TrustDomain := .known "example.org", Path := .known "/other/path" }
                Selectors := some [{ Type_ := .known "unix", Value := .known "uid:501" }] } }
    ∧ (SpireEntryResource.Create (answeringCreate responseOkThenExists) [] planService
          ()).1.Written
      ≠ some
          { Id := .known "e1"
            SpiffeId := some
              { TrustDomain := .known "example.org", Path := .known "/some/service" }
            ParentId := some { TrustDomain := .known "example.org", Path := .known "/some/path" }
            Selectors := some [{ Type_ := .known "unix", Value := .known "uid:501" }] } := by
  refine ⟨rfl, rfl, ?_⟩
  decide

/-- C4, amended: when `BatchCreateEntry` returns without error and every
result item before the last carries an entry with both identities, the
id, subject identity and parent identity `Create` writes to state are
those of the last result item of the sequence, whatever the outcome any
item reports; the selectors written are the plan's. -/
theorem Create_state_from_last_result {σ : Type} (client : entryv1.EntryClient σ)
    (planDiags : List diag.Diagnostic) (data : SpireEntryResourceModel) (s s' : σ)
    (request : entryv1.BatchCreateEntryRequest) (response : entryv1.BatchCreateEntryResponse)
    (earlier : List entryv1.BatchCreateEntryResponse_Result)
    (last : entryv1.BatchCreateEntryResponse_Result)
    (entry : spireTypes.Entry) (sid pid : spireTypes.SPIFFEID)
    (hdiags : diag.HasError planDiags = false)
    (hreq : SpireEntryResource.Create_request data = some request)
    (hcall : client.BatchCreateEntry request s = (.ok response, s'))
    (hresults : response.Results = earlier ++ [last])
    (hearlier : ∀ r ∈ earlier, r.Complete = true)
    (hentry : last.Entry = some entry) (hsid : entry.SpiffeId = some sid)
    (hpid : entry.ParentId = some pid) :
    SpireEntryResource.Create client planDiags data s
      = (.returned
          { Diagnostics := diag.Append [] planDiags
            State := some
              { Id := .known entry.Id
                SpiffeId := some { TrustDomain := .known sid.TrustDomain, Path := .known sid.Path }
                ParentId := some { TrustDomain := .known pid.TrustDomain, Path := .known pid.Path }
                Selectors := data.Selectors } }, s') := by
  rw [SpireEntryResource.Create_after_call client planDiags data s s' request response
    hdiags hreq hcall, hresults, SpireEntryResource.Create_results_append]
  obtain ⟨mid, hmid⟩ := SpireEntryResource.Create_results_total earlier data hearlier
  have hsel := SpireEntryResource.Create_results_selectors earlier data mid hmid
  rw [hmid, Option.some_bind,
    SpireEntryResource.Create_results_cons_complete last [] mid entry sid pid hentry hsid hpid,
    hsel]
  rfl

theorem Create_state_from_last_result_witness :
    SpireEntryResource.Create (answeringCreate responseOkThenExists) [] planService ()
      = (.returned
          { Diagnostics := []
            State := some
              { Id := .known "e2"
                SpiffeId := some
                  { TrustDomain := .known "example.org", Path := .known "/other/service" }
                ParentId := some
                  { TrustDomain := .known "example.org", Path := .known "/other/path" }
                Selectors := some [{ Type_ := .known "unix", Value := .known "uid:501" }] } },
          ()) :=
  Create_state_from_last_result (answeringCreate responseOkThenExists) [] planService () ()
    { Entries := [
        { Id := ""
          SpiffeId := some { TrustDomain := "example.org", Path := "/some/service" }
          ParentId := some { TrustDomain := "example.org", Path := "/some/path" }
          Selectors := [{ Type_ := "unix", Value := "uid:501" }] }] }
    responseOkThenExists
    [{ Status := some { Code := 0, Message := "OK" }, Entry := some entryService }]
    { Status := some { Code := 6, Message := "similar entry already exists" }
      Entry := some entryOther }
    entryOther
    { TrustDomain := "example.org", Path := "/other/service" }
    { TrustDomain := "example.org", Path := "/other/path" }
    rfl rfl rfl rfl (by decide) rfl rfl rfl

/-- C5, as stated, fails: for a one-item response whose item is
ALREADY_EXISTS, `Create` records no diagnostic and writes the entry to
state. -/
theorem Create_already_exists_no_error :
    (SpireEntryResource.Create (answeringCreate responseAlreadyExists) [] planService
        ()).1.RecordsError = false
    ∧ (SpireEntryResource.Create (answeringCreate responseAlreadyExists) [] planService ()).1
      = .returned
          { Diagnostics := []
            State := some
              { Id := .known "e1"
                SpiffeId := some
                  { TrustDomain := .known "example.org", Path := .known "/some/service" }
                ParentId := some
                  { TrustDomain := .known "example.org", Path := .known "/some/path" }
                Selectors := some [{ Type_ := .known "unix", Value := .known "uid:501" }] } } :=
  ⟨rfl, rfl⟩

/-- C5, amended: when `BatchCreateEntry` returns without error, `Create`
records no error diagnostic whatever outcome the result item reports;
and when the single result item carries an entry with both identities,
`Create` writes that entry's id and identities to state, with the plan's
selectors, and adds no diagnostic. -/
theorem Create_ignores_item_status {σ : Type} (client : entryv1.EntryClient σ)
    (planDiags : List diag.Diagnostic) (data : SpireEntryResourceModel) (s s' : σ)
    (request : entryv1.BatchCreateEntryRequest) (response : entryv1.BatchCreateEntryResponse)
    (hdiags : diag.HasError planDiags = false)
    (hreq : SpireEntryResource.Create_request data = some request)
    (hcall : client.BatchCreateEntry request s = (.ok response, s')) :
    (SpireEntryResource.Create client planDiags data s).1.RecordsError = false
    ∧ ∀ (status : Option spireTypes.Status) (entry : spireTypes.Entry)
        (sid pid : spireTypes.SPIFFEID),
        response.Results = [{ Status := status, Entry := some entry }] →
        entry.SpiffeId = some sid → entry.ParentId = some pid →
        SpireEntryResource.Create client planDiags data s
          = (.returned
              { Diagnostics := diag.Append [] planDiags
                State := some
                  { Id := .known entry.Id
                    SpiffeId := some
                      { TrustDomain := .known sid.TrustDomain, Path := .known sid.Path }
                    ParentId := some
                      { TrustDomain := .known pid.TrustDomain, Path := .known pid.Path }
                    Selectors := data.Selectors } }, s') := by
  have h0 : diag.HasError (diag.Append [] planDiags) = false := by
    rw [diag.HasError_Append, hdiags]; rfl
  rw [SpireEntryResource.Create_after_call client planDiags data s s' request response
    hdiags hreq hcall]
  refine ⟨?_, ?_⟩
  · cases SpireEntryResource.Create_results response.Results data with
    | none => rfl
    | some data' => exact h0
  · intro status entry sid pid hresults hsid hpid
    rw [hresults, SpireEntryResource.Create_results_cons_complete _ [] data entry sid pid rfl
      hsid hpid]
    rfl

theorem Create_ignores_item_status_witness :
    SpireEntryResource.Create (answeringCreate responseAlreadyExists) [] planService ()
      = (.returned
          { Diagnostics := []
            State := some
              { Id := .known "e1"
                SpiffeId := some
                  { TrustDomain := .known "example.org", Path := .known "/some/service" }
                ParentId := some
                  { TrustDomain := .known "example.org", Path := .known "/some/path" }
                Selectors := some [{ Type_ := .known "unix", Value := .known "uid:501" }] } },
          ()) :=
  (Create_ignores_item_status (answeringCreate responseAlreadyExists) [] planService () ()
    { Entries := [
        { Id := ""
          SpiffeId := some { TrustDomain := "example.org", Path := "/some/service" }
          ParentId := some { TrustDomain := "example.org", Path := "/some/path" }
          Selectors := [{ Type_ := "unix", Value := "uid:501" }] }] }
    responseAlreadyExists rfl rfl rfl).2
    (some { Code := 6, Message := "similar entry already exists" }) entryService
    { TrustDomain := "example.org", Path := "/some/service" }
    { TrustDomain := "example.org", Path := "/some/path" } rfl rfl rfl

/-- C8: for a plan whose selectors are present, the single item of the
request `Create` builds carries the plan's selectors in the same number
and order; and when `BatchCreateEntry` returns without error, the state
`Create` writes has the plan's selectors unchanged, whatever selectors
the result items carry. `Create` does write state when every result item
carries an entry with both identities; otherwise it faults. -/
theorem Create_keeps_plan_selectors {σ : Type} (client : entryv1.EntryClient σ)
    (planDiags : List diag.Diagnostic) (data : SpireEntryResourceModel) (s s' : σ)
    (sels : List SpiffeSelectorModel)
    (request : entryv1.BatchCreateEntryRequest) (response : entryv1.BatchCreateEntryResponse)
    (hdiags : diag.HasError planDiags = false)
    (hsels : data.Selectors = some sels)
    (hreq : SpireEntryResource.Create_request data = some request)
    (hcall : client.BatchCreateEntry request s = (.ok response, s')) :
    (∃ item, request.Entries = [item]
      ∧ item.Selectors = sels.map fun sel =>
          { Type_ := sel.Type_.ValueString, Value := sel.Value.ValueString })
    ∧ (SpireEntryResource.Create client planDiags data s = (.fault, s')
      ∨ ∃ written, SpireEntryResource.Create client planDiags data s
          = (.returned { Diagnostics := diag.Append [] planDiags, State := some written }, s')
        ∧ written.Selectors = some sels)
    ∧ ((∀ r ∈ response.Results, r.Complete = true) →
        ∃ written, SpireEntryResource.Create client planDiags data s
          = (.returned { Diagnostics := diag.Append [] planDiags, State := some written }, s')
        ∧ written.Selectors = some sels) := by
  rw [SpireEntryResource.Create_after_call client planDiags data s s' request response
    hdiags hreq hcall]
  refine ⟨?_, ?_, ?_⟩
  · unfold SpireEntryResource.Create_request at hreq
    rw [SpireEntryResource.Create_selectors_some data sels hsels] at hreq
    cases hsid : data.SpiffeId with
    | none => simp [hsid] at hreq
    | some sid =>
      cases hpid : data.ParentId with
      | none => simp [hsid, hpid] at hreq
      | some pid =>
        simp only [hsid, hpid, Option.some.injEq] at hreq
        rw [← hreq]
        exact ⟨_, rfl, rfl⟩
  · cases hres : SpireEntryResource.Create_results response.Results data with
    | none => exact Or.inl rfl
    | some data' =>
      refine Or.inr ⟨data', rfl, ?_⟩
      rw [SpireEntryResource.Create_results_selectors response.Results data data' hres, hsels]
  · intro hall
    obtain ⟨data', hres⟩ := SpireEntryResource.Create_results_total response.Results data hall
    refine ⟨data', by rw [hres], ?_⟩
    rw [SpireEntryResource.Create_results_selectors response.Results data data' hres, hsels]

theorem Create_keeps_plan_selectors_witness :
    ∃ written,
      SpireEntryResource.Create (answeringCreate { Results := [
          { Status := some { Code := 0, Message := "OK" }, Entry := some entryOther }] })
        [] planService ()
        = (.returned { Diagnostics := [], State := some written }, ())
      ∧ written.Selectors = some [{ Type_ := .known "unix", Value := .known "uid:501" }] :=
  (Create_keeps_plan_selectors
    (answeringCreate { Results := [
      { Status := some { Code := 0, Message := "OK" }, Entry := some entryOther }] })
    [] planService () ()
    [{ Type_ := .known "unix", Value := .known "uid:501" }]
    { Entries := [
        { Id := ""
          SpiffeId := some { TrustDomain := "example.org", Path := "/some/service" }
          ParentId := some { TrustDomain := "example.org", Path := "/some/path" }
          Selectors := [{ Type_ := "unix", Value := "uid:501" }] }] }
    { Results := [{ Status := some { Code := 0, Message := "OK" }, Entry := some entryOther }] }
    rfl rfl rfl rfl).2.2 (by decide)

/-! ## Transport errors -/

/-- C10: when the RPC fails with the error text `err`, each of the five
operations records one error diagnostic whose detail is `err`; the
summaries are `Failed to create entries`, `Failed to get entry`,
`Failed to update entry`, `Failed to get entry` and
`Failed to list entries`, so `Delete` records the very diagnostic that
`Read` records. -/
theorem Delete_transport_error_reads_as_Read (err : GoString) (data : SpireEntryResourceModel) :
    (SpireEntryResource.Create (unreachableRegistry err) [] planService ()).1
      = .returned
          { Diagnostics := [{ Severity := .SeverityError
                              Summary := "Failed to create entries", Detail := err }]
            State := none }
    ∧ (SpireEntryResource.Read (unreachableRegistry err) [] data ()).1
      = .returned
          { Diagnostics := [{ Severity := .SeverityError
                              Summary := "Failed to get entry", Detail := err }]
            State := none }
    ∧ (SpireEntryResource.Update (unreachableRegistry err) [] planService2 ()).1
      = .returned
          { Diagnostics := [{ Severity := .SeverityError
                              Summary := "Failed to update entry", Detail := err }]
            State := none }
    ∧ (SpireEntryResource.Delete (unreachableRegistry err) [] data ()).1
      = .returned
          { Diagnostics := [{ Severity := .SeverityError
                              Summary := "Failed to get entry", Detail := err }]
            State := none }
    ∧ (SpireEntryDataSource.Read (unreachableRegistry err) [] dataSourceConfig ()).1
      = .returned
          { Diagnostics := [{ Severity := .SeverityError
                              Summary := "Failed to list entries", Detail := err }]
            State := none }
    ∧ (SpireEntryResource.Delete (unreachableRegistry err) [] data ()).1
      = (SpireEntryResource.Read (unreachableRegistry err) [] data ()).1 :=
  ⟨rfl, rfl, rfl, rfl, rfl, rfl⟩

/-! ## Create without selectors -/

/-- C11: at a plan with both identities present and the optional
selectors attribute absent, `Create` faults on the selectors collection
before any request is built: no `BatchCreateEntry` call is made, no
diagnostic is recorded and the registry state is untouched, whatever the
client. With the selectors present and empty, the same plan does reach
the call, with an empty selector list. -/
theorem Create_faults_on_absent_selectors {σ : Type} (client : entryv1.EntryClient σ) (s : σ) :
    SpireEntryResource.Create_selectors planNoSelectors = none
    ∧ SpireEntryResource.Create_request planNoSelectors = none
    ∧ SpireEntryResource.Create client [] planNoSelectors s = (.fault, s)
    ∧ (SpireEntryResource.Create client [] planNoSelectors s).1.RecordsError = false
    ∧ SpireEntryResource.Create_request { planNoSelectors with Selectors := some [] }
      = some { Entries := [
          { Id := ""
            SpiffeId := some { TrustDomain := "example.org", Path := "/some/service" }
            ParentId := some { TrustDomain := "example.org", Path := "/some/path" }
            Selectors := [] }] } :=
  ⟨rfl, rfl, rfl, rfl, rfl⟩

/-! ## Lemmas on the set check of `State.Set` -/

theorem DuplicateSetElements_of_nodup (sels : List SpiffeSelectorModel) (h : sels.Nodup) :
    DuplicateSetElements sels = [] := by
  induction sels with
  | nil => rfl
  | cons outer rest ih =>
    have hnot : outer ∉ rest := (List.nodup_cons.1 h).1
    have hfilter : (rest.filter fun inner => decide (inner = outer)) = [] := by
      rw [List.filter_eq_nil_iff]
      intro inner hinner heq
      exact hnot (by rw [← of_decide_eq_true heq]; exact hinner)
    simp only [DuplicateSetElements, hfilter, List.map_nil, ite_self, List.nil_append]
    exact ih (List.nodup_cons.1 h).2

theorem DuplicateSetElements_of_repeated (sels : List SpiffeSelectorModel)
    (hknown : ∀ sel ∈ sels, sel.IsFullyKnown = true) (h : ¬ sels.Nodup) :
    diag.HasError (DuplicateSetElements sels) = true := by
  induction sels with
  | nil => exact absurd List.nodup_nil h
  | cons outer rest ih =>
    simp only [DuplicateSetElements, hknown outer (List.mem_cons_self outer rest), if_true]
    rw [diag.HasError_append]
    by_cases hmem : outer ∈ rest
    · have hin : outer ∈ rest.filter fun inner => decide (inner = outer) :=
        List.mem_filter.2 ⟨hmem, decide_eq_true rfl⟩
      have : diag.HasError ((rest.filter fun inner => decide (inner = outer)).map fun inner =>
          ({ Severity := .SeverityError
             Summary := "Duplicate Set Element"
             Detail := "This attribute contains duplicate values of: " ++ tftypesSelector inner }
            : diag.Diagnostic)) = true := by
        simp only [diag.HasError, List.any_eq_true]
        exact ⟨_, List.mem_map.2 ⟨outer, hin, rfl⟩, by simp⟩
      rw [this]
      rfl
    · have hrest : ¬ rest.Nodup := fun hn => h (List.nodup_cons.2 ⟨hmem, hn⟩)
      rw [ih (fun sel hsel => hknown sel (List.mem_cons_of_mem outer hsel)) hrest]
      exact Bool.or_true _

theorem Read_selectors_known (sels : List spireTypes.Selector) :
    ∀ sel ∈ Read_selectors sels, sel.IsFullyKnown = true := by
  intro sel hsel
  rw [Read_selectors_eq_map] at hsel
  obtain ⟨wire, _, rfl⟩ := List.mem_map.1 hsel
  rfl

theorem Read_selectors_nodup (sels : List spireTypes.Selector) :
    (Read_selectors sels).Nodup ↔ sels.Nodup := by
  rw [Read_selectors_eq_map]
  refine List.nodup_map_iff ?_
  intro a b hab
  simp only [types.StringValue, SpiffeSelectorModel.mk.injEq, types.String.known.injEq] at hab
  cases a
  cases b
  simp only [spireTypes.Selector.mk.injEq]
  exact hab

theorem StateSet_selectors_nodup (sels : List spireTypes.Selector) (h : sels.Nodup) :
    StateSet_selectors (some (Read_selectors sels))
      = .ok (if sels.isEmpty then none
          else some (sels.map fun sel =>
            { Type_ := .known sel.Type_, Value := .known sel.Value })) := by
  have hdup := DuplicateSetElements_of_nodup (Read_selectors sels) ((Read_selectors_nodup sels).2 h)
  cases hsels : sels with
  | nil => rfl
  | cons sel rest =>
    rw [hsels] at hdup
    rw [Read_selectors_eq_map] at hdup ⊢
    simp only [List.map_cons, types.StringValue] at hdup ⊢
    simp only [StateSet_selectors, hdup, diag.Append_nil]
    rfl

theorem StateSet_selectors_repeated (sels : List spireTypes.Selector) (h : ¬ sels.Nodup) :
    ∃ diags, StateSet_selectors (some (Read_selectors sels)) = .error diags
      ∧ diag.HasError diags = true := by
  have hdup := DuplicateSetElements_of_repeated (Read_selectors sels) (Read_selectors_known sels)
    (fun hn => h ((Read_selectors_nodup sels).1 hn))
  have herr : diag.HasError (diag.Append [] (DuplicateSetElements (Read_selectors sels))) = true := by
    rw [diag.HasError_Append, hdup]
    rfl
  cases hbuilt : Read_selectors sels with
  | nil =>
    rw [hbuilt] at hdup
    cases hdup
  | cons sel rest =>
    rw [hbuilt] at herr
    refine ⟨diag.Append [] (DuplicateSetElements (sel :: rest)), ?_, herr⟩
    simp only [StateSet_selectors, herr, if_true]

/-! ## Resource read -/

theorem SpireEntryResource.Read_after_get {σ : Type} (client : entryv1.EntryClient σ)
    (stateDiags : List diag.Diagnostic) (data : SpireEntryResourceModel) (s s' : σ)
    (entry : spireTypes.Entry) (sid pid : spireTypes.SPIFFEID)
    (hdiags : diag.HasError stateDiags = false)
    (hcall : client.GetEntry { Id := data.Id.ValueString } s = (.ok entry, s'))
    (hsid : entry.SpiffeId = some sid) (hpid : entry.ParentId = some pid) :
    SpireEntryResource.Read client stateDiags data s
      = match StateSet_selectors (some (Read_selectors entry.Selectors)) with
        | .error diags =>
          (.returned
            { Diagnostics := diag.Append (diag.Append [] stateDiags) diags, State := none }, s')
        | .ok stored =>
          (.returned
            { Diagnostics := diag.Append [] stateDiags
              State := some
                { Id := .known entry.Id
                  SpiffeId := some
                    { TrustDomain := .known sid.TrustDomain, Path := .known sid.Path }
                  ParentId := some
                    { TrustDomain := .known pid.TrustDomain, Path := .known pid.Path }
                  Selectors := stored } }, s') := by
  have h0 : diag.HasError (diag.Append [] stateDiags) = false := by
    rw [diag.HasError_Append, hdiags]; rfl
  simp only [SpireEntryResource.Read, SpireEntryResource.Read_request, h0, hcall,
    SpireEntryResource.Read_entry, hsid, hpid, SpireEntryResource.Read_StateSet,
    types.StringValue]
  cases StateSet_selectors (some (Read_selectors entry.Selectors)) <;> rfl

theorem SpireEntryResource.Read_same_id {σ : Type} (client : entryv1.EntryClient σ)
    (stateDiags : List diag.Diagnostic) (data other : SpireEntryResourceModel) (s : σ)
    (hid : other.Id.ValueString = data.Id.ValueString) :
    SpireEntryResource.Read client stateDiags other s
      = SpireEntryResource.Read client stateDiags data s := by
  simp only [SpireEntryResource.Read, SpireEntryResource.Read_request, hid]

/-- C3, as stated, fails: for a `GetEntry` response that carries the same
selector twice, `Read` records an error diagnostic and writes no state;
and for a response without selectors the state written holds the null
set, not a selector list. -/
theorem Resource_Read_refuses_repeated_selector :
    memoryRegistry.GetEntry { Id := "e1" } [entryServiceRepeated]
      = (.ok entryServiceRepeated, [entryServiceRepeated])
    ∧ (SpireEntryResource.Read memoryRegistry [] planService2
        [entryServiceRepeated]).1.RecordsError = true
    ∧ (SpireEntryResource.Read memoryRegistry [] planService2
        [entryServiceRepeated]).1.Written = none
    ∧ (SpireEntryResource.Read memoryRegistry [] planService2 [entryServiceBare]).1.Written
      = some
          { Id := .known "e1"
            SpiffeId := some
              { TrustDomain := .known "example.org", Path := .known "/some/service" }
            ParentId := some { TrustDomain := .known "example.org", Path := .known "/some/path" }
            Selectors := none } :=
  ⟨rfl, rfl, rfl, rfl⟩

/-- C3, amended: when `GetEntry` returns, without error, an entry that
carries both identities, then: if no selector of the entry is repeated,
the state `Read` writes has the entry's id, subject identity and parent
identity, and its selectors are the null set when the entry has none and
otherwise the entry's selectors in the same number and order; if a
selector is repeated, `Read` records an error diagnostic and writes no
state; and two prior states with the same id give the same result. -/
theorem Resource_Read_state_from_response {σ : Type} (client : entryv1.EntryClient σ)
    (stateDiags : List diag.Diagnostic) (data : SpireEntryResourceModel) (s s' : σ)
    (entry : spireTypes.Entry) (sid pid : spireTypes.SPIFFEID)
    (hdiags : diag.HasError stateDiags = false)
    (hcall : client.GetEntry { Id := data.Id.ValueString } s = (.ok entry, s'))
    (hsid : entry.SpiffeId = some sid) (hpid : entry.ParentId = some pid) :
    (entry.Selectors.Nodup →
      SpireEntryResource.Read client stateDiags data s
        = (.returned
            { Diagnostics := diag.Append [] stateDiags
              State := some
                { Id := .known entry.Id
                  SpiffeId := some
                    { TrustDomain := .known sid.TrustDomain, Path := .known sid.Path }
                  ParentId := some
                    { TrustDomain := .known pid.TrustDomain, Path := .known pid.Path }
                  Selectors :=
                    if entry.Selectors.isEmpty then none
                    else some (entry.Selectors.map fun sel =>
                      { Type_ := .known sel.Type_, Value := .known sel.Value }) } }, s'))
    ∧ (¬ entry.Selectors.Nodup →
        (SpireEntryResource.Read client stateDiags data s).1.RecordsError = true
        ∧ (SpireEntryResource.Read client stateDiags data s).1.Written = none
        ∧ (SpireEntryResource.Read client stateDiags data s).2 = s')
    ∧ (∀ other : SpireEntryResourceModel, other.Id.ValueString = data.Id.ValueString →
        SpireEntryResource.Read client stateDiags other s
          = SpireEntryResource.Read client stateDiags data s) := by
  rw [SpireEntryResource.Read_after_get client stateDiags data s s' entry sid pid hdiags hcall
    hsid hpid]
  refine ⟨?_, ?_, ?_⟩
  · intro hnodup
    rw [StateSet_selectors_nodup entry.Selectors hnodup]
  · intro hrep
    obtain ⟨diags, hset, herr⟩ := StateSet_selectors_repeated entry.Selectors hrep
    rw [hset]
    refine ⟨?_, rfl, rfl⟩
    simp only [Outcome.RecordsError, diag.HasError_Append, herr, Bool.or_true]
  · intro other hid
    rw [SpireEntryResource.Read_same_id client stateDiags data other s hid,
      SpireEntryResource.Read_after_get client stateDiags data s s' entry sid pid hdiags hcall
        hsid hpid]

theorem Resource_Read_state_from_response_witness :
    SpireEntryResource.Read memoryRegistry [] planService2 [entryOther, entryService]
      = (.returned
          { Diagnostics := []
            State := some
              { Id := .known "e1"
                SpiffeId := some
                  { TrustDomain := .known "example.org", Path := .known "/some/service" }
                ParentId := some
                  { TrustDomain := .known "example.org", Path := .known "/some/path" }
                Selectors := some [{ Type_ := .known "unix", Value := .known "uid:501" }] } },
          [entryOther, entryService])
    ∧ SpireEntryResource.Read memoryRegistry [] planUid1000 [entryOther, entryService]
      = SpireEntryResource.Read memoryRegistry [] planService2 [entryOther, entryService] :=
  have h := Resource_Read_state_from_response memoryRegistry [] planService2
    [entryOther, entryService] [entryOther, entryService] entryService
    { TrustDomain := "example.org", Path := "/some/service" }
    { TrustDomain := "example.org", Path := "/some/path" } rfl rfl rfl rfl
  ⟨h.1 (by decide), h.2.2 planUid1000 rfl⟩

/-! ## Data source lookup -/

theorem SpireEntryDataSource.Read_after_list {σ : Type} (client : entryv1.EntryClient σ)
    (configDiags : List diag.Diagnostic) (data : SpireEntryDataSourceModel) (s s' : σ)
    (request : entryv1.ListEntriesRequest) (entries : entryv1.ListEntriesResponse)
    (hdiags : diag.HasError configDiags = false)
    (hreq : SpireEntryDataSource.Read_request data = some request)
    (hcall : client.ListEntries request s = (.ok entries, s')) :
    SpireEntryDataSource.Read client configDiags data s
      = if entries.Entries.length ≠ 1 then
          (.returned
            { Diagnostics := diag.AddError (diag.Append [] configDiags)
                "Failed to find resource matching datasource filter"
                (SpireEntryDataSource.Read_detail entries.Entries.length)
              State := none }, s')
        else
          match entries.Entries.get? (entries.Entries.length - 1) with
          | none => (.fault, s')
          | some entry =>
            match SpireEntryDataSource.Read_entry entry with
            | none => (.fault, s')
            | some data' =>
              (.returned
                { Diagnostics := diag.Append (diag.Append [] configDiags)
                    (SpireEntryDataSource.Read_StateSet data').2
                  State := (SpireEntryDataSource.Read_StateSet data').1 }, s') := by
  have h0 : diag.HasError (diag.Append [] configDiags) = false := by
    rw [diag.HasError_Append, hdiags]; rfl
  simp only [SpireEntryDataSource.Read, h0, hreq, hcall]
  rfl

theorem SpireEntryDataSource.Read_after_single {σ : Type} (client : entryv1.EntryClient σ)
    (configDiags : List diag.Diagnostic) (data : SpireEntryDataSourceModel) (s s' : σ)
    (request : entryv1.ListEntriesRequest) (entries : entryv1.ListEntriesResponse)
    (entry : spireTypes.Entry) (sid pid : spireTypes.SPIFFEID)
    (hdiags : diag.HasError configDiags = false)
    (hreq : SpireEntryDataSource.Read_request data = some request)
    (hcall : client.ListEntries request s = (.ok entries, s'))
    (hentries : entries.Entries = [entry])
    (hsid : entry.SpiffeId = some sid) (hpid : entry.ParentId = some pid) :
    SpireEntryDataSource.Read client configDiags data s
      = match StateSet_selectors (some (Read_selectors entry.Selectors)) with
        | .error diags =>
          (.returned
            { Diagnostics := diag.Append (diag.Append [] configDiags) diags, State := none }, s')
        | .ok stored =>
          (.returned
            { Diagnostics := diag.Append [] configDiags
              State := some
                { Id := .known entry.Id
                  SpiffeId := some
                    { TrustDomain := .known sid.TrustDomain, Path := .known sid.Path }
                  ParentId := some
                    { TrustDomain := .known pid.TrustDomain, Path := .known pid.Path }
                  Selectors := stored } }, s') := by
  rw [SpireEntryDataSource.Read_after_list client configDiags data s s' request entries
    hdiags hreq hcall, hentries]
  simp only [List.length_singleton, ne_eq, not_true_eq_false, if_false, Nat.sub_self,
    List.get?_cons_zero, SpireEntryDataSource.Read_entry, hsid, hpid,
    SpireEntryDataSource.Read_StateSet, types.StringValue]
  cases StateSet_selectors (some (Read_selectors entry.Selectors)) <;> rfl

theorem SpireEntryDataSource.Read_after_incomplete {σ : Type} (client : entryv1.EntryClient σ)
    (configDiags : List diag.Diagnostic) (data : SpireEntryDataSourceModel) (s s' : σ)
    (request : entryv1.ListEntriesRequest) (entries : entryv1.ListEntriesResponse)
    (entry : spireTypes.Entry)
    (hdiags : diag.HasError configDiags = false)
    (hreq : SpireEntryDataSource.Read_request data = some request)
    (hcall : client.ListEntries request s = (.ok entries, s'))
    (hentries : entries.Entries = [entry])
    (hmissing : entry.SpiffeId = none ∨ entry.ParentId = none) :
    SpireEntryDataSource.Read client configDiags data s = (.fault, s') := by
  rw [SpireEntryDataSource.Read_after_list client configDiags data s s' request entries
    hdiags hreq hcall, hentries]
  rcases hmissing with h | h
  · simp [SpireEntryDataSource.Read_entry, h]
  · cases hsid : entry.SpiffeId <;> simp [SpireEntryDataSource.Read_entry, h, hsid]

/-- C2, as stated, fails: for a `ListEntries` response holding exactly
one entry, whose selector comes twice, the data source `Read` records an
error diagnostic although the number of entries is one. -/
theorem DataSource_Read_error_with_one_entry :
    (memoryRegistry.ListEntries
        { Filter := some
            { BySpiffeId := some
                { TrustDomain := "example.org", Path := "/some/datasource-test" } } }
        [dataSourceEntryRepeated]).1
      = .ok { Entries := [dataSourceEntryRepeated] }
    ∧ [dataSourceEntryRepeated].length = 1
    ∧ (SpireEntryDataSource.Read memoryRegistry [] dataSourceConfig
        [dataSourceEntryRepeated]).1.RecordsError = true :=
  ⟨rfl, rfl, rfl⟩

/-- C2, amended: when `ListEntries` returns without error, the data
source `Read` records an error diagnostic exactly when the number of
returned entries is not one, or it is one and that entry, carrying both
identities, has a repeated selector; when the number is not one it
writes no state, and the diagnostic it adds has the detail
`Got 'n' results` with `n` the number of entries returned. -/
theorem DataSource_Read_error_iff_not_one_or_repeated {σ : Type}
    (client : entryv1.EntryClient σ)
    (configDiags : List diag.Diagnostic) (data : SpireEntryDataSourceModel) (s s' : σ)
    (request : entryv1.ListEntriesRequest) (entries : entryv1.ListEntriesResponse)
    (hdiags : diag.HasError configDiags = false)
    (hreq : SpireEntryDataSource.Read_request data = some request)
    (hcall : client.ListEntries request s = (.ok entries, s')) :
    ((SpireEntryDataSource.Read client configDiags data s).1.RecordsError = true
        ↔ (entries.Entries.length ≠ 1
          ∨ ∃ (entry : spireTypes.Entry) (sid pid : spireTypes.SPIFFEID),
              entries.Entries = [entry] ∧ entry.SpiffeId = some sid ∧ entry.ParentId = some pid
              ∧ ¬ entry.Selectors.Nodup))
    ∧ (entries.Entries.length ≠ 1 →
        SpireEntryDataSource.Read client configDiags data s
          = (.returned
              { Diagnostics := diag.Append [] configDiags ++
                  [{ Severity := .SeverityError
                     Summary := "Failed to find resource matching datasource filter"
                     Detail := "Got '" ++ toString entries.Entries.length ++ "' results" }]
                State := none }, s')) := by
  have h0 : diag.HasError (diag.Append [] configDiags) = false := by
    rw [diag.HasError_Append, hdiags]; rfl
  by_cases hlen : entries.Entries.length ≠ 1
  · have hread := SpireEntryDataSource.Read_after_list client configDiags data s s' request
      entries hdiags hreq hcall
    rw [if_pos hlen, diag.AddError_of_no_error _ _ _ h0] at hread
    refine ⟨⟨fun _ => Or.inl hlen, fun _ => ?_⟩, fun _ => hread⟩
    rw [hread]
    simp only [Outcome.RecordsError, diag.HasError_append, h0, Bool.false_or]
    rfl
  · refine ⟨?_, fun h => absurd h hlen⟩
    obtain ⟨entry, hentries⟩ := List.length_eq_one.1 (not_not.1 hlen)
    cases hsid : entry.SpiffeId with
    | none =>
      rw [SpireEntryDataSource.Read_after_incomplete client configDiags data s s' request
        entries entry hdiags hreq hcall hentries (Or.inl hsid)]
      constructor
      · intro h
        cases h
      · rintro (h | ⟨entry', sid, pid, hentries', hsid', _, _⟩)
        · exact absurd h hlen
        · rw [hentries] at hentries'
          rw [← List.singleton_inj.1 hentries', hsid] at hsid'
          cases hsid'
    | some sid =>
      cases hpid : entry.ParentId with
      | none =>
        rw [SpireEntryDataSource.Read_after_incomplete client configDiags data s s' request
          entries entry hdiags hreq hcall hentries (Or.inr hpid)]
        constructor
        · intro h
          cases h
        · rintro (h | ⟨entry', sid', pid, hentries', _, hpid', _⟩)
          · exact absurd h hlen
          · rw [hentries] at hentries'
            rw [← List.singleton_inj.1 hentries', hpid] at hpid'
            cases hpid'
      | some pid =>
        rw [SpireEntryDataSource.Read_after_single client configDiags data s s' request
          entries entry sid pid hdiags hreq hcall hentries hsid hpid]
        by_cases hnodup : entry.Selectors.Nodup
        · rw [StateSet_selectors_nodup entry.Selectors hnodup]
          constructor
          · intro h
            simp only [Outcome.RecordsError, h0] at h
            cases h
          · rintro (h | ⟨entry', _, _, hentries', _, _, hrep⟩)
            · exact absurd h hlen
            · rw [hentries] at hentries'
              rw [← List.singleton_inj.1 hentries'] at hrep
              exact absurd hnodup hrep
        · obtain ⟨diags, hset, herr⟩ := StateSet_selectors_repeated entry.Selectors hnodup
          rw [hset]
          constructor
          · intro _
            exact Or.inr ⟨entry, sid, pid, hentries, hsid, hpid, hnodup⟩
          · intro _
            simp only [Outcome.RecordsError, diag.HasError_Append, herr, Bool.or_true]

theorem DataSource_Read_error_iff_not_one_or_repeated_witness :
    (SpireEntryDataSource.Read memoryRegistry [] dataSourceConfig
        [dataSourceEntry, dataSourceEntry]).1.RecordsError = true
    ∧ SpireEntryDataSource.Read memoryRegistry [] dataSourceConfig
        [dataSourceEntry, dataSourceEntry]
      = (.returned
          { Diagnostics :=
              [{ Severity := .SeverityError
                 Summary := "Failed to find resource matching datasource filter"
                 Detail := "Got '2' results" }]
            State := none }, [dataSourceEntry, dataSourceEntry]) :=
  have h := DataSource_Read_error_iff_not_one_or_repeated memoryRegistry [] dataSourceConfig
    [dataSourceEntry, dataSourceEntry] [dataSourceEntry, dataSourceEntry]
    { Filter := some
        { BySpiffeId := some { TrustDomain := "example.org", Path := "/some/datasource-test" } } }
    { Entries := [dataSourceEntry, dataSourceEntry] } rfl rfl rfl
  ⟨h.1.2 (Or.inl (by decide)), h.2 (by decide)⟩

/-- C9, as stated, fails: for a `ListEntries` response holding exactly
one entry, one of whose selectors comes twice, the data source `Read`
writes no state at all. -/
theorem DataSource_Read_repeated_selector_writes_nothing :
    (memoryRegistry.ListEntries
        { Filter := some
            { BySpiffeId := some
                { TrustDomain := "example.org", Path := "/some/datasource-test" } } }
        [entryService, dataSourceEntryRepeatedApart]).1
      = .ok { Entries := [dataSourceEntryRepeatedApart] }
    ∧ (SpireEntryDataSource.Read memoryRegistry [] dataSourceConfig
        [entryService, dataSourceEntryRepeatedApart]).1.Written = none
    ∧ (SpireEntryDataSource.Read memoryRegistry [] dataSourceConfig
        [entryService, dataSourceEntryRepeatedApart]).1.RecordsError = true :=
  ⟨rfl, rfl, rfl⟩

/-- C9, amended: the data source `Read` sends a filter whose trust domain
and path are those of the configured subject identity; when the answer
holds exactly one entry, carrying both identities, then: if no selector
of the entry is repeated, the state written has the entry's id, subject
identity and parent identity, and its selectors are the null set when
the entry has none and otherwise the entry's selectors in the same
number and order; if a selector is repeated, `Read` records an error
diagnostic and writes no state. -/
theorem DataSource_Read_single_entry {σ : Type} (client : entryv1.EntryClient σ)
    (configDiags : List diag.Diagnostic) (data : SpireEntryDataSourceModel) (s s' : σ)
    (subject : SpiffeIdModel) (entry : spireTypes.Entry) (sid pid : spireTypes.SPIFFEID)
    (hdiags : diag.HasError configDiags = false)
    (hsubject : data.SpiffeId = some subject)
    (hcall : client.ListEntries
        { Filter := some
            { BySpiffeId := some
                { TrustDomain := subject.TrustDomain.ValueString
                  Path := subject.Path.ValueString } } } s
      = (.ok { Entries := [entry] }, s'))
    (hsid : entry.SpiffeId = some sid) (hpid : entry.ParentId = some pid) :
    SpireEntryDataSource.Read_request data
      = some
          { Filter := some
              { BySpiffeId := some
                  { TrustDomain := subject.TrustDomain.ValueString
                    Path := subject.Path.ValueString } } }
    ∧ (entry.Selectors.Nodup →
        SpireEntryDataSource.Read client configDiags data s
          = (.returned
              { Diagnostics := diag.Append [] configDiags
                State := some
                  { Id := .known entry.Id
                    SpiffeId := some
                      { TrustDomain := .known sid.TrustDomain, Path := .known sid.Path }
                    ParentId := some
                      { TrustDomain := .known pid.TrustDomain, Path := .known pid.Path }
                    Selectors :=
                      if entry.Selectors.isEmpty then none
                      else some (entry.Selectors.map fun sel =>
                        { Type_ := .known sel.Type_, Value := .known sel.Value }) } }, s'))
    ∧ (¬ entry.Selectors.Nodup →
        (SpireEntryDataSource.Read client configDiags data s).1.RecordsError = true
        ∧ (SpireEntryDataSource.Read client configDiags data s).1.Written = none
        ∧ (SpireEntryDataSource.Read client configDiags data s).2 = s') := by
  have hreq : SpireEntryDataSource.Read_request data
      = some
          { Filter := some
              { BySpiffeId := some
                  { TrustDomain := subject.TrustDomain.ValueString
                    Path := subject.Path.ValueString } } } := by
    simp [SpireEntryDataSource.Read_request, hsubject]
  refine ⟨hreq, ?_, ?_⟩
  · intro hnodup
    rw [SpireEntryDataSource.Read_after_single client configDiags data s s' _ _ entry sid pid
      hdiags hreq hcall rfl hsid hpid, StateSet_selectors_nodup entry.Selectors hnodup]
  · intro hrep
    obtain ⟨diags, hset, herr⟩ := StateSet_selectors_repeated entry.Selectors hrep
    rw [SpireEntryDataSource.Read_after_single client configDiags data s s' _ _ entry sid pid
      hdiags hreq hcall rfl hsid hpid, hset]
    refine ⟨?_, rfl, rfl⟩
    simp only [Outcome.RecordsError, diag.HasError_Append, herr, Bool.or_true]

theorem DataSource_Read_single_entry_witness :
    SpireEntryDataSource.Read memoryRegistry [] dataSourceConfig [entryService, dataSourceEntry]
      = (.returned
          { Diagnostics := []
            State := some
              { Id := .known "ds-1"
                SpiffeId := some
                  { TrustDomain := .known "example.org", Path := .known "/some/datasource-test" }
                ParentId := some
                  { TrustDomain := .known "example.org", Path := .known "/some/path" }
                Selectors := some [{ Type_ := .known "unix", Value := .known "uid:501" }] } },
          [entryService, dataSourceEntry]) :=
  (DataSource_Read_single_entry memoryRegistry [] dataSourceConfig
    [entryService, dataSourceEntry] [entryService, dataSourceEntry]
    { TrustDomain := .known "example.org", Path := .known "/some/datasource-test" }
    dataSourceEntry
    { TrustDomain := "example.org", Path := "/some/datasource-test" }
    { TrustDomain := "example.org", Path := "/some/path" }
    rfl rfl rfl rfl rfl).2.1 (by decide)
